import Mathlib

/-!
Verification development for the droneOne arbitration-and-execution engine.

The definitions below are a shallow embedding of
  src/core/command_arbitrator.py  (CommandArbitrator)
  src/core/command_executor.py    (CommandExecutor)
  src/state_management/drone_state.py (DroneState)
  scripts/main_controller.py      (the two command-recording paths)
Numeric parameters are modelled as rationals, MAVSDK call results as
booleans supplied by a per-call environment, and the asyncio task
lifecycle as an explicit event trace (start / cancel / observed end).
-/

namespace DroneOne

/-! ## Data model: commands (the wire dictionaries of section 6) -/

/-- The `parameters` dictionary of a command: each key the code ever reads
with `params.get(...)`, absent keys modelled as `none`. -/
structure Params where
  north_m : Option ℚ := none
  east_m : Option ℚ := none
  altitude_m : Option ℚ := none
  target_north_m : Option ℚ := none
  target_east_m : Option ℚ := none
  target_down_m : Option ℚ := none
  follow_distance_m : Option ℚ := none
  follow_altitude_m : Option ℚ := none
  target_id : Option String := none
deriving DecidableEq

/-- A command dictionary: `action`, `parameters` (default empty dict),
`reason` (default placeholder, as in `command.get("reason", ...)`). -/
structure Cmd where
  action : String
  parameters : Params := {}
  reason : String := ""
deriving DecidableEq

/-! ## CommandArbitrator (src/core/command_arbitrator.py) -/

/-- The arbitrator's mutable fields: `_human_command` and
`_human_control_active`. -/
structure CommandArbitrator where
  humanCommand : Option Cmd
  humanControlActive : Bool
deriving DecidableEq

/-- Constructor `CommandArbitrator.__init__`: no pending command, human control active
by default. -/
def CommandArbitrator.init : CommandArbitrator :=
  { humanCommand := none, humanControlActive := true }

/-- Method `set_human_command`: record the command and activate human control. -/
def setHumanCommand (_a : CommandArbitrator) (c : Cmd) : CommandArbitrator :=
  { humanCommand := some c, humanControlActive := true }

/-- Method `release_human_control`: clear any pending command and deactivate. -/
def releaseHumanControl (_a : CommandArbitrator) : CommandArbitrator :=
  { humanCommand := none, humanControlActive := false }

/-- Method `set_human_control_active(is_active)`: set the flag; only when
activating (`is_active = true`) is the pending command cleared. -/
def setHumanControlActive (a : CommandArbitrator) (isActive : Bool) : CommandArbitrator :=
  { humanCommand := if isActive then none else a.humanCommand,
    humanControlActive := isActive }

/-- The idle-hold command the arbitrator returns while human control is
active with no pending command. -/
def doNothingCmd : Cmd :=
  { action := "do_nothing",
    reason := "Human control active, awaiting specific command or release." }

/-- Method `arbitrate_command(llm_proposed_command)`: human command if active and
pending (consuming it), else idle hold if active, else the proposal. -/
def arbitrateCommand (a : CommandArbitrator) (llmProposed : Cmd) : Cmd × CommandArbitrator :=
  if a.humanControlActive then
    match a.humanCommand with
    | some c => (c, { a with humanCommand := none })
    | none => (doNothingCmd, a)
  else
    (llmProposed, a)

/-! ## CommandExecutor (src/core/command_executor.py)

The executor manages two asyncio tasks (the 10 Hz setpoint stream and the
follow loop).  We embed it as a state machine whose operations return,
besides the updated state, the trace of externally observable events:
setpoint transmissions, MAVSDK mode calls, and the task lifecycle
(start, cancel request, observed termination).  A task is *live* between
its start event and its end event. -/

/-- MAVSDK `PositionNedYaw` setpoint. -/
structure PositionNedYaw where
  north : ℚ
  east : ℚ
  down : ℚ
  yaw : ℚ
deriving DecidableEq

/-- An asyncio task handle: identity plus the `done()` flag the code
consults. -/
structure TaskH where
  id : Nat
  done : Bool
deriving DecidableEq

/-- Field `self._target_info`: the dictionary stored by the follow_target
branch. -/
structure TargetInfo where
  id : String
  north_m : ℚ
  east_m : ℚ
  down_m : ℚ
deriving DecidableEq

/-- Observable events emitted while executing commands. -/
inductive Ev where
  | sendSetpoint (sp : PositionNedYaw)
  | startStream (id : Nat)
  | cancelStream (id : Nat)
  | endStream (id : Nat)
  | startFollow (id : Nat)
  | cancelFollow (id : Nat)
  | endFollow (id : Nat)
  | offboardStartCall
  | offboardStopCall
  | armCall
  | takeoffCall (alt : ℚ)
  | landCall
  | disarmCall
deriving DecidableEq

/-- The mutable fields of `CommandExecutor.__init__`, plus a fresh-id
counter for task handles. -/
structure CommandExecutor where
  offboardSetpointTask : Option TaskH
  offboardActive : Bool
  currentOffboardSetpoint : PositionNedYaw
  targetInfo : Option TargetInfo
  followDistance : ℚ
  followAltitude : ℚ
  followTask : Option TaskH
  nextTaskId : Nat
deriving DecidableEq

/-- Initial executor state, as constructed in `__init__`. -/
def CommandExecutor.init : CommandExecutor :=
  { offboardSetpointTask := none, offboardActive := false,
    currentOffboardSetpoint := ⟨0, 0, 0, 0⟩, targetInfo := none,
    followDistance := 0, followAltitude := 0, followTask := none,
    nextTaskId := 0 }

/-- Results of the MAVSDK / telemetry calls an `execute_command` call may
make: connection flag plus the outcome of each vehicle-link operation and
the latest NED position readout (`none` on timeout). -/
structure LinkEnv where
  connected : Bool := true
  armOk : Bool := true
  takeoffOk : Bool := true
  landOk : Bool := true
  disarmOk : Bool := true
  offboardStartOk : Bool := true
  offboardStopOk : Bool := true
  posRead : Option PositionNedYaw := none
deriving DecidableEq

/-- Method `_start_offboard_setpoint_stream`: store the setpoint; if a live
stream task exists, cancel it and await its exit; transmit the setpoint
10 times (offboard priming); then launch the streaming task and mark
offboard active. -/
def startOffboardSetpointStream (s0 : CommandExecutor) (n e d yaw : ℚ) :
    CommandExecutor × List Ev :=
  let sp : PositionNedYaw := ⟨n, e, d, yaw⟩
  let s1 := { s0 with currentOffboardSetpoint := sp }
  let cancelPart : CommandExecutor × List Ev :=
    match s1.offboardSetpointTask with
    | some t =>
        if t.done then (s1, [])
        else ({ s1 with offboardSetpointTask := none },
              [Ev.cancelStream t.id, Ev.endStream t.id])
    | none => (s1, [])
  let s2 := cancelPart.1
  let k := s2.nextTaskId
  ({ s2 with offboardSetpointTask := some ⟨k, false⟩, offboardActive := true,
             nextTaskId := k + 1 },
   cancelPart.2 ++ List.replicate 10 (Ev.sendSetpoint sp) ++ [Ev.startStream k])

/-- Method `_stop_offboard_setpoint_stream`: if a stream task handle exists,
cancel it, await it, drop the handle and clear the offboard flag.  The
end event is emitted only if the task was still live. -/
def stopOffboardSetpointStream (s0 : CommandExecutor) : CommandExecutor × List Ev :=
  match s0.offboardSetpointTask with
  | some t =>
      ({ s0 with offboardSetpointTask := none, offboardActive := false },
       if t.done then [Ev.cancelStream t.id]
       else [Ev.cancelStream t.id, Ev.endStream t.id])
  | none => (s0, [])

/-- The hold setpoint `_try_set_offboard_mode` streams before the mode
switch: the current NED position if telemetry delivers one, else the
(0, 0, -10) fallback. -/
def holdSetpoint (env : LinkEnv) : PositionNedYaw :=
  match env.posRead with
  | some p => ⟨p.north, p.east, p.down, 0⟩
  | none => ⟨0, 0, -10, 0⟩

/-- Method `_try_set_offboard_mode`: if offboard is not active, start a hold
stream first (reading telemetry); then call `offboard.start()`; on
failure stop the just-started stream and report failure. -/
def trySetOffboardMode (s0 : CommandExecutor) (env : LinkEnv) :
    Bool × CommandExecutor × List Ev :=
  let prep : CommandExecutor × List Ev :=
    if s0.offboardActive then (s0, [])
    else
      let sp := holdSetpoint env
      startOffboardSetpointStream s0 sp.north sp.east sp.down 0
  let s1 := prep.1
  if env.offboardStartOk then
    (true, s1, prep.2 ++ [Ev.offboardStartCall])
  else
    let cleanup : CommandExecutor × List Ev :=
      if s1.offboardActive then stopOffboardSetpointStream s1 else (s1, [])
    (false, cleanup.1, prep.2 ++ [Ev.offboardStartCall] ++ cleanup.2)

/-- Method `_try_set_hold_mode`: call `offboard.stop()`; on success clear the
offboard flag (the task handle is not touched). -/
def trySetHoldMode (s0 : CommandExecutor) (env : LinkEnv) :
    Bool × CommandExecutor × List Ev :=
  if env.offboardStopOk then
    (true, { s0 with offboardActive := false }, [Ev.offboardStopCall])
  else
    (false, s0, [Ev.offboardStopCall])

/-- Outcome of one iteration of `_follow_target_loop`. -/
inductive FollowStep where
  | stopped
  | skipped
  | moved
  | held
deriving DecidableEq

/-- One iteration of the body of `_follow_target_loop`: break if the
target info is gone; skip if no drone position is available; else aim at
the target's N/E at `-follow_altitude_m` down and, when the horizontal
distance to that point exceeds `follow_distance_m`, restart the setpoint
stream at it, otherwise leave the stream and setpoint untouched.  The
source compares `math.sqrt(dx**2 + dy**2) > follow_distance_m`; over the
rationals this is expressed equivalently (without a square root) as
`follow_distance_m < 0 ∨ dx^2 + dy^2 > follow_distance_m^2`. -/
def followTargetLoopIter (s0 : CommandExecutor) (env : LinkEnv) :
    FollowStep × CommandExecutor × List Ev :=
  match s0.targetInfo with
  | none => (.stopped, s0, [])
  | some tgt =>
      match env.posRead with
      | none => (.skipped, s0, [])
      | some pos =>
          let desiredN := tgt.north_m
          let desiredE := tgt.east_m
          let desiredD := -s0.followAltitude
          let dx := desiredN - pos.north
          let dy := desiredE - pos.east
          if s0.followDistance < 0 ∨ dx ^ 2 + dy ^ 2 > s0.followDistance ^ 2 then
            let res := startOffboardSetpointStream s0 desiredN desiredE desiredD 0
            (.moved, res.1, res.2)
          else
            (.held, s0, [])

/-- First prologue of `execute_command`: any live follow task is cancelled
and awaited when the incoming action is not `follow_target`; the target
info and the handle are cleared. -/
def prologueFollow (s0 : CommandExecutor) (action : String) :
    CommandExecutor × List Ev :=
  match s0.followTask with
  | some t =>
      if !t.done && action != "follow_target" then
        ({ s0 with followTask := none, targetInfo := none },
         [Ev.cancelFollow t.id, Ev.endFollow t.id])
      else (s0, [])
  | none => (s0, [])

/-- Second prologue of `execute_command`: the setpoint stream is stopped
when offboard is active and the incoming action is none of
`goto_location`, `follow_target`, `do_nothing`. -/
def prologueStream (s1 : CommandExecutor) (action : String) :
    CommandExecutor × List Ev :=
  if s1.offboardActive &&
     !(action == "goto_location" || action == "follow_target" || action == "do_nothing") then
    stopOffboardSetpointStream s1
  else (s1, [])

/-- The follow-loop launch at the end of the `follow_target` branch: a new
task is created only when no follow task exists or the recorded one is
done; otherwise the running task is kept (parameters were updated). -/
def startFollowIfIdle (u : CommandExecutor) : CommandExecutor × List Ev :=
  match u.followTask with
  | some t =>
      if t.done then
        ({ u with followTask := some ⟨u.nextTaskId, false⟩,
                  nextTaskId := u.nextTaskId + 1 },
         [Ev.startFollow u.nextTaskId])
      else (u, [])
  | none =>
      ({ u with followTask := some ⟨u.nextTaskId, false⟩,
                nextTaskId := u.nextTaskId + 1 },
       [Ev.startFollow u.nextTaskId])

/-- The per-action dispatch of `execute_command`, applied after the two
prologues. -/
def dispatchCommand (s2 : CommandExecutor) (action : String) (params : Params)
    (env : LinkEnv) : Bool × CommandExecutor × List Ev :=
  if action == "takeoff" then
    if !env.connected then (false, s2, [])
    else if env.armOk then
      (env.takeoffOk, s2, [Ev.armCall, Ev.takeoffCall (params.altitude_m.getD (5 / 2))])
    else (false, s2, [Ev.armCall])
  else if action == "land" then
    if !env.connected then (false, s2, [])
    else if env.landOk then (true, s2, [Ev.landCall, Ev.disarmCall])
    else (false, s2, [Ev.landCall])
  else if action == "disarm" then
    if !env.connected then (false, s2, [])
    else (env.disarmOk, s2, [Ev.disarmCall])
  else if action == "goto_location" then
    if !env.connected then (false, s2, [])
    else
      match params.north_m, params.east_m, params.altitude_m with
      | some n, some e, some alt =>
          let modePart : Bool × CommandExecutor × List Ev :=
            if !s2.offboardActive then trySetOffboardMode s2 env else (true, s2, [])
          if !modePart.1 then (false, modePart.2.1, modePart.2.2)
          else
            let streamPart := startOffboardSetpointStream modePart.2.1 n e (-alt) 0
            (true, streamPart.1, modePart.2.2 ++ streamPart.2)
      | _, _, _ => (false, s2, [])
  else if action == "follow_target" then
    if !env.connected then (false, s2, [])
    else
      match params.target_north_m, params.target_east_m, params.target_down_m,
            params.follow_distance_m, params.follow_altitude_m with
      | some tn, some te, some td, some fd, some fa =>
          let s3 := { s2 with
            targetInfo := some ⟨params.target_id.getD "unknown_target", tn, te, td⟩,
            followDistance := fd, followAltitude := fa }
          let modePart : Bool × CommandExecutor × List Ev :=
            if !s3.offboardActive then trySetOffboardMode s3 env else (true, s3, [])
          if !modePart.1 then (false, modePart.2.1, modePart.2.2)
          else
            let followPart := startFollowIfIdle modePart.2.1
            (true, followPart.1, modePart.2.2 ++ followPart.2)
      | _, _, _, _, _ => (false, s2, [])
  else if action == "do_nothing" then
    if s2.offboardActive &&
       (match s2.offboardSetpointTask with | none => true | some t => t.done) then
      match env.posRead with
      | some p =>
          let streamPart := startOffboardSetpointStream s2 p.north p.east p.down 0
          (true, streamPart.1, streamPart.2)
      | none =>
          let holdPart := trySetHoldMode s2 env
          (true, holdPart.2.1, holdPart.2.2)
    else (true, s2, [])
  else
    (false, s2, [])

/-- Method `execute_command`: the two prologues (cancel a live follow task on any
non-follow action; stop the stream on any non-offboard action), then the
per-action dispatch.  Returns the success boolean, the new state and the
event trace. -/
def executeCommand (s0 : CommandExecutor) (cmd : Cmd) (env : LinkEnv) :
    Bool × CommandExecutor × List Ev :=
  let pro1 := prologueFollow s0 cmd.action
  let pro2 := prologueStream pro1.1 cmd.action
  let disp := dispatchCommand pro2.1 cmd.action cmd.parameters env
  (disp.1, disp.2.1, pro1.2 ++ pro2.2 ++ disp.2.2)

/-! ## Task accounting over event traces

A stream task is live between its `startStream` and `endStream` events;
likewise for follow tasks.  `openStreams`/`openFollows` compute the ids of
the currently live tasks after a trace. -/

/-- Update the list of live stream-task ids by one event. -/
def streamStep (l : List Nat) : Ev → List Nat
  | .startStream k => k :: l
  | .endStream k => l.erase k
  | _ => l

/-- Update the list of live follow-task ids by one event. -/
def followStep (l : List Nat) : Ev → List Nat
  | .startFollow k => k :: l
  | .endFollow k => l.erase k
  | _ => l

/-- Ids of stream tasks live after the trace. -/
def openStreams (evs : List Ev) : List Nat := evs.foldl streamStep []

/-- Ids of follow tasks live after the trace. -/
def openFollows (evs : List Ev) : List Nat := evs.foldl followStep []

/-- The live stream task recorded in the executor state (a done handle is
not live). -/
def liveS (s : CommandExecutor) : List Nat :=
  match s.offboardSetpointTask with
  | some t => if t.done then [] else [t.id]
  | none => []

/-- The live follow task recorded in the executor state. -/
def liveF (s : CommandExecutor) : List Nat :=
  match s.followTask with
  | some t => if t.done then [] else [t.id]
  | none => []

/-- Predicate `boundedFrom ls lf evs`: starting from live-task lists `ls`, `lf`,
after every single event of `evs` both lists still hold at most one id. -/
def boundedFrom (ls lf : List Nat) : List Ev → Prop
  | [] => True
  | e :: rest =>
      (streamStep ls e).length ≤ 1 ∧ (followStep lf e).length ≤ 1 ∧
      boundedFrom (streamStep ls e) (followStep lf e) rest

/-- Events that touch neither task-liveness list. -/
def neutralEv : Ev → Bool
  | .startStream _ => false
  | .endStream _ => false
  | .startFollow _ => false
  | .endFollow _ => false
  | _ => true

/-- Predicate `Tracks s evs t`: the trace `evs` emitted while moving from state `s`
to state `t` keeps at most one live task of each kind at every instant,
and its task accounting agrees with the state's handles at both ends. -/
def Tracks (s : CommandExecutor) (evs : List Ev) (t : CommandExecutor) : Prop :=
  boundedFrom (liveS s) (liveF s) evs ∧
  evs.foldl streamStep (liveS s) = liveS t ∧
  evs.foldl followStep (liveF s) = liveF t

/-! ## Scheduler driver

Between two `execute_command` calls the background tasks may terminate on
their own (an exception in the loop): the stream loop leaves its done
handle in place, the follow loop's `finally` clause clears the handle and
the target info. -/

/-- A live stream task terminating on its own (exception in the loop): the
done handle stays in place. -/
def tickStream (s0 : CommandExecutor) (dies : Bool) : CommandExecutor × List Ev :=
  match s0.offboardSetpointTask with
  | some t =>
      if dies && !t.done then
        ({ s0 with offboardSetpointTask := some ⟨t.id, true⟩ }, [Ev.endStream t.id])
      else (s0, [])
  | none => (s0, [])

/-- A live follow task terminating on its own: its `finally` clause clears
the handle and the target info. -/
def tickFollow (s0 : CommandExecutor) (dies : Bool) : CommandExecutor × List Ev :=
  match s0.followTask with
  | some t =>
      if dies && !t.done then
        ({ s0 with followTask := none, targetInfo := none }, [Ev.endFollow t.id])
      else (s0, [])
  | none => (s0, [])

/-- Spontaneous background-task terminations between two commands. -/
def schedTick (s0 : CommandExecutor) (streamDies followDies : Bool) :
    CommandExecutor × List Ev :=
  let sPart := tickStream s0 streamDies
  let fPart := tickFollow sPart.1 followDies
  (fPart.1, sPart.2 ++ fPart.2)

/-- One step of the control loop: background terminations, then one
executed command under its link environment. -/
structure SchedStep where
  streamDies : Bool
  followDies : Bool
  cmd : Cmd
  env : LinkEnv

/-- Run a sequence of control-loop steps, accumulating the event trace. -/
def runSteps (s0 : CommandExecutor) : List SchedStep → CommandExecutor × List Ev
  | [] => (s0, [])
  | st :: rest =>
      let tick := schedTick s0 st.streamDies st.followDies
      let exec := executeCommand tick.1 st.cmd st.env
      let tail := runSteps exec.2.1 rest
      (tail.1, tick.2 ++ exec.2.2 ++ tail.2)

/-- An environment where every link call succeeds and telemetry reports a
position. -/
def demoEnv : LinkEnv := { posRead := some ⟨1, 2, -3, 0⟩ }

/-- A fully-parameterised goto_location command. -/
def gotoDemoCmd : Cmd :=
  { action := "goto_location",
    parameters := { north_m := some 5, east_m := some 6, altitude_m := some 7 } }

/-- A fully-parameterised follow_target command. -/
def followDemoCmd : Cmd :=
  { action := "follow_target",
    parameters := { target_north_m := some 8, target_east_m := some 9,
                    target_down_m := some 0, follow_distance_m := some 4,
                    follow_altitude_m := some 10 } }

/-- A concrete two-command run: goto_location then follow_target. -/
def demoSteps : List SchedStep :=
  [⟨false, false, gotoDemoCmd, demoEnv⟩, ⟨false, false, followDemoCmd, demoEnv⟩]

/-- An environment where the offboard mode switch is rejected and
telemetry yields no position. -/
def failEnv : LinkEnv := { offboardStartOk := false }

/-- An environment with the vehicle link disconnected. -/
def envDisconnected : LinkEnv := { connected := false }

/-- An executor state with a live follow task (id 3). -/
def liveFollowState : CommandExecutor :=
  { CommandExecutor.init with
    followTask := some ⟨3, false⟩,
    targetInfo := some ⟨"t", 1, 2, 3⟩, nextTaskId := 4 }

/-- A pursuit-loop state: following target at the origin with follow
distance 10 and altitude 5, drone already at the desired point, while the
current streamed setpoint is still an old value. -/
def heldFollowState : CommandExecutor :=
  { CommandExecutor.init with
    targetInfo := some ⟨"t", 0, 0, 0⟩,
    followDistance := 10, followAltitude := 5,
    currentOffboardSetpoint := ⟨99, 99, -99, 0⟩,
    offboardSetpointTask := some ⟨0, false⟩, offboardActive := true,
    nextTaskId := 1 }

/-- An environment whose position readout puts the drone at the desired
follow point (0, 0, -5). -/
def heldFollowEnv : LinkEnv := { posRead := some ⟨0, 0, -5, 0⟩ }

/-- A human land command. -/
def landCmd : Cmd := { action := "land", reason := "Human override: manual land." }

/-- A takeoff command with a negative (invalid per the spec) altitude. -/
def takeoffNegCmd : Cmd :=
  { action := "takeoff", parameters := { altitude_m := some (-5) } }

/-! ## The controller state store and recording paths
(src/state_management/drone_state.py, scripts/main_controller.py) -/

/-- The `DroneState` store fields relevant to command recording and
arbitration flags, plus the detected-object tracks held in the visual
insights. -/
structure DroneState where
  detectedObjects : List TargetInfo
  lastExecutedCommand : Cmd
  humanControlActive : Bool
  llmFollowingActive : Bool
deriving DecidableEq

/-- Constructor `DroneState.__init__`. -/
def DroneState.init : DroneState :=
  { detectedObjects := [],
    lastExecutedCommand := { action := "none", reason := "System startup." },
    humanControlActive := true, llmFollowingActive := false }

/-- Setter `set_last_executed_command`: unconditional field replacement. -/
def setLastExecutedCommand (ds : DroneState) (c : Cmd) : DroneState :=
  { ds with lastExecutedCommand := c }

/-- Setter `set_human_control_status`. -/
def setHumanControlStatus (ds : DroneState) (b : Bool) : DroneState :=
  { ds with humanControlActive := b }

/-- The main loop's direct human-command path (actions land / disarm /
takeoff / goto_location): execute the command, then record it as last
executed *without consulting the result*, and return control flags to
human. -/
def humanFlightCommandPath (ds : DroneState) (arb : CommandArbitrator)
    (ex : CommandExecutor) (cmd : Cmd) (env : LinkEnv) :
    DroneState × CommandArbitrator × CommandExecutor :=
  let exec := executeCommand ex cmd env
  (setHumanControlStatus (setLastExecutedCommand ds cmd) true,
   setHumanControlActive arb true,
   exec.2.1)

/-- The main loop's arbitrated (autonomous) command path: execute the
arbitrated command and record it as last executed only on success. -/
def arbitratedCommandPath (ds : DroneState) (ex : CommandExecutor)
    (cmd : Cmd) (env : LinkEnv) : DroneState × CommandExecutor :=
  let exec := executeCommand ex cmd env
  (if exec.1 then setLastExecutedCommand ds cmd else ds, exec.2.1)

/-! ## Task-accounting lemmas -/

theorem liveS_length (s : CommandExecutor) : (liveS s).length ≤ 1 := by
  unfold liveS
  cases s.offboardSetpointTask with
  | none => simp
  | some t => by_cases h : t.done <;> simp [h]

theorem liveF_length (s : CommandExecutor) : (liveF s).length ≤ 1 := by
  unfold liveF
  cases s.followTask with
  | none => simp
  | some t => by_cases h : t.done <;> simp [h]

theorem boundedFrom_append (a b : List Ev) : ∀ ls lf,
    boundedFrom ls lf (a ++ b) ↔
      boundedFrom ls lf a ∧
      boundedFrom (a.foldl streamStep ls) (a.foldl followStep lf) b := by
  induction a with
  | nil => intro ls lf; simp [boundedFrom]
  | cons e rest ih => intro ls lf; simp [boundedFrom, ih, and_assoc]

theorem tracks_of_eq {s t : CommandExecutor} (h1 : liveS s = liveS t)
    (h2 : liveF s = liveF t) : Tracks s [] t := by
  exact ⟨trivial, by simpa using h1, by simpa using h2⟩

theorem tracks_rfl (s : CommandExecutor) : Tracks s [] s := tracks_of_eq rfl rfl

theorem tracks_append {s t u : CommandExecutor} {a b : List Ev}
    (h1 : Tracks s a t) (h2 : Tracks t b u) : Tracks s (a ++ b) u := by
  obtain ⟨hb1, hs1, hf1⟩ := h1
  obtain ⟨hb2, hs2, hf2⟩ := h2
  refine ⟨?_, ?_, ?_⟩
  · rw [boundedFrom_append]
    exact ⟨hb1, by rw [hs1, hf1]; exact hb2⟩
  · rw [List.foldl_append, hs1]; exact hs2
  · rw [List.foldl_append, hf1]; exact hf2

theorem streamStep_neutral {e : Ev} (h : neutralEv e = true) (l : List Nat) :
    streamStep l e = l := by
  cases e <;> simp_all [neutralEv, streamStep]

theorem followStep_neutral {e : Ev} (h : neutralEv e = true) (l : List Nat) :
    followStep l e = l := by
  cases e <;> simp_all [neutralEv, followStep]

theorem tracks_neutral {s : CommandExecutor} {evs : List Ev}
    (h : ∀ e ∈ evs, neutralEv e = true) : Tracks s evs s := by
  induction evs with
  | nil => exact tracks_rfl s
  | cons e rest ih =>
      have he : neutralEv e = true := h e (by simp)
      have hr : ∀ x ∈ rest, neutralEv x = true := fun x hx => h x (by simp [hx])
      obtain ⟨hb, hs, hf⟩ := ih hr
      refine ⟨?_, ?_, ?_⟩
      · exact ⟨by simp [streamStep_neutral he, liveS_length],
          by simp [followStep_neutral he, liveF_length],
          by simpa [streamStep_neutral he, followStep_neutral he] using hb⟩
      · simpa [streamStep_neutral he] using hs
      · simpa [followStep_neutral he] using hf

theorem replicate_ten {α : Type} (x : α) :
    List.replicate 10 x = [x, x, x, x, x, x, x, x, x, x] := rfl

theorem tracks_neutral_to {s s' : CommandExecutor} {evs : List Ev}
    (h : ∀ e ∈ evs, neutralEv e = true)
    (h1 : liveS s = liveS s') (h2 : liveF s = liveF s') : Tracks s evs s' := by
  simpa using tracks_append (tracks_neutral h) (tracks_of_eq h1 h2)

theorem tracks_start_new {s s' : CommandExecutor} {k : Nat}
    (hls : liveS s = []) (hls' : liveS s' = [k]) (hlf : liveF s' = liveF s) :
    Tracks s [Ev.startStream k] s' := by
  refine ⟨⟨?_, ?_, trivial⟩, ?_, ?_⟩ <;>
    simp [streamStep, followStep, hls, hls', hlf, liveF_length]

theorem tracks_cancel_end_stream {s s' : CommandExecutor} {k : Nat}
    (hls : liveS s = [k]) (hls' : liveS s' = []) (hlf : liveF s' = liveF s) :
    Tracks s [Ev.cancelStream k, Ev.endStream k] s' := by
  refine ⟨⟨?_, ?_, ?_, ?_, trivial⟩, ?_, ?_⟩ <;>
    simp [streamStep, followStep, hls, hls', hlf, liveF_length]

theorem tracks_end_stream_only {s s' : CommandExecutor} {k : Nat}
    (hls : liveS s = [k]) (hls' : liveS s' = []) (hlf : liveF s' = liveF s) :
    Tracks s [Ev.endStream k] s' := by
  refine ⟨⟨?_, ?_, trivial⟩, ?_, ?_⟩ <;>
    simp [streamStep, followStep, hls, hls', hlf, liveF_length]

theorem tracks_start_new_follow {s s' : CommandExecutor} {k : Nat}
    (hlf : liveF s = []) (hlf' : liveF s' = [k]) (hls : liveS s' = liveS s) :
    Tracks s [Ev.startFollow k] s' := by
  refine ⟨⟨?_, ?_, trivial⟩, ?_, ?_⟩ <;>
    simp [streamStep, followStep, hlf, hlf', hls, liveS_length]

theorem tracks_cancel_end_follow {s s' : CommandExecutor} {k : Nat}
    (hlf : liveF s = [k]) (hlf' : liveF s' = []) (hls : liveS s' = liveS s) :
    Tracks s [Ev.cancelFollow k, Ev.endFollow k] s' := by
  refine ⟨⟨?_, ?_, ?_, ?_, trivial⟩, ?_, ?_⟩ <;>
    simp [streamStep, followStep, hlf, hlf', hls, liveS_length]

theorem tracks_end_follow_only {s s' : CommandExecutor} {k : Nat}
    (hlf : liveF s = [k]) (hlf' : liveF s' = []) (hls : liveS s' = liveS s) :
    Tracks s [Ev.endFollow k] s' := by
  refine ⟨⟨?_, ?_, trivial⟩, ?_, ?_⟩ <;>
    simp [streamStep, followStep, hlf, hlf', hls, liveS_length]

theorem sends_neutral (sp : PositionNedYaw) (m : Nat) :
    ∀ e ∈ List.replicate m (Ev.sendSetpoint sp), neutralEv e = true := by
  intro e he
  rw [List.eq_of_mem_replicate he]
  rfl

/-! ## Tracks lemmas for the executor operations -/

theorem tracks_startOffboard (s : CommandExecutor) (n e d y : ℚ) :
    Tracks s (startOffboardSetpointStream s n e d y).2
      (startOffboardSetpointStream s n e d y).1 := by
  cases hT : s.offboardSetpointTask with
  | none =>
      have hls : liveS s = [] := by simp [liveS, hT]
      have h2 : Tracks s [Ev.startStream s.nextTaskId]
          { s with currentOffboardSetpoint := ⟨n, e, d, y⟩,
                   offboardSetpointTask := some ⟨s.nextTaskId, false⟩,
                   offboardActive := true, nextTaskId := s.nextTaskId + 1 } :=
        tracks_start_new hls (by simp [liveS]) (by simp [liveF])
      have h := tracks_append (tracks_neutral (sends_neutral ⟨n, e, d, y⟩ 10)) h2
      simp only [startOffboardSetpointStream, hT]
      simpa using h
  | some t =>
      by_cases hd : t.done
      · have hls : liveS s = [] := by simp [liveS, hT, hd]
        have h2 : Tracks s [Ev.startStream s.nextTaskId]
            { s with currentOffboardSetpoint := ⟨n, e, d, y⟩,
                     offboardSetpointTask := some ⟨s.nextTaskId, false⟩,
                     offboardActive := true, nextTaskId := s.nextTaskId + 1 } :=
          tracks_start_new hls (by simp [liveS]) (by simp [liveF])
        have h := tracks_append (tracks_neutral (sends_neutral ⟨n, e, d, y⟩ 10)) h2
        simp only [startOffboardSetpointStream, hT, hd, if_true]
        simpa using h
      · have hls : liveS s = [t.id] := by simp [liveS, hT, hd]
        have h1 : Tracks s [Ev.cancelStream t.id, Ev.endStream t.id]
            { s with offboardSetpointTask := none } :=
          tracks_cancel_end_stream hls (by simp [liveS]) (by simp [liveF])
        have h2 : Tracks ({ s with offboardSetpointTask := none } : CommandExecutor)
            [Ev.startStream s.nextTaskId]
            { s with currentOffboardSetpoint := ⟨n, e, d, y⟩,
                     offboardSetpointTask := some ⟨s.nextTaskId, false⟩,
                     offboardActive := true, nextTaskId := s.nextTaskId + 1 } :=
          tracks_start_new (by simp [liveS]) (by simp [liveS]) (by simp [liveF])
        have h := tracks_append
          (tracks_append h1 (tracks_neutral (sends_neutral ⟨n, e, d, y⟩ 10))) h2
        simp only [startOffboardSetpointStream, hT, hd, Bool.false_eq_true, if_false]
        simpa using h

theorem tracks_stopOffboard (s : CommandExecutor) :
    Tracks s (stopOffboardSetpointStream s).2 (stopOffboardSetpointStream s).1 := by
  cases hT : s.offboardSetpointTask with
  | none => simp only [stopOffboardSetpointStream, hT]; exact tracks_rfl s
  | some t =>
      by_cases hd : t.done
      · simp only [stopOffboardSetpointStream, hT, hd, if_true]
        refine tracks_neutral_to (by simp [neutralEv]) ?_ ?_ <;> simp [liveS, liveF, hT, hd]
      · simp only [stopOffboardSetpointStream, hT, hd, Bool.false_eq_true, if_false]
        refine tracks_cancel_end_stream ?_ ?_ ?_ <;> simp [liveS, liveF, hT, hd]

theorem startOffboard_active (s : CommandExecutor) (n e d y : ℚ) :
    (startOffboardSetpointStream s n e d y).1.offboardActive = true := by
  cases hT : s.offboardSetpointTask with
  | none => simp [startOffboardSetpointStream, hT]
  | some t => by_cases hd : t.done <;> simp [startOffboardSetpointStream, hT, hd]

theorem tracks_tryOffboard (s : CommandExecutor) (env : LinkEnv) :
    Tracks s (trySetOffboardMode s env).2.2 (trySetOffboardMode s env).2.1 := by
  have hcall : ∀ u : CommandExecutor, Tracks u [Ev.offboardStartCall] u :=
    fun u => tracks_neutral (by simp [neutralEv])
  by_cases hA : s.offboardActive <;> by_cases hOk : env.offboardStartOk
  · simp only [trySetOffboardMode, hA, hOk, if_true]
    exact hcall s
  · simp only [trySetOffboardMode, hA, hOk, if_true, Bool.false_eq_true, if_false]
    simpa using tracks_append (hcall s) (tracks_stopOffboard s)
  · simp only [trySetOffboardMode, hA, hOk, Bool.false_eq_true, if_false, if_true]
    have h := tracks_append
      (tracks_startOffboard s (holdSetpoint env).north (holdSetpoint env).east
        (holdSetpoint env).down 0)
      (hcall _)
    simpa using h
  · have hact := startOffboard_active s (holdSetpoint env).north (holdSetpoint env).east
      (holdSetpoint env).down 0
    have h := tracks_append
      (tracks_append
        (tracks_startOffboard s (holdSetpoint env).north (holdSetpoint env).east
          (holdSetpoint env).down 0)
        (hcall _))
      (tracks_stopOffboard _)
    simp only [trySetOffboardMode, hA, hOk, Bool.false_eq_true, if_false, hact, if_true]
    simpa using h

theorem tracks_tryHold (s : CommandExecutor) (env : LinkEnv) :
    Tracks s (trySetHoldMode s env).2.2 (trySetHoldMode s env).2.1 := by
  by_cases hOk : env.offboardStopOk <;>
    simp only [trySetHoldMode, hOk, Bool.false_eq_true, if_true, if_false] <;>
    refine tracks_neutral_to (by simp [neutralEv]) ?_ ?_ <;> simp [liveS, liveF]

theorem tracks_startFollowIfIdle (u : CommandExecutor) :
    Tracks u (startFollowIfIdle u).2 (startFollowIfIdle u).1 := by
  cases hFT : u.followTask with
  | none =>
      simp only [startFollowIfIdle, hFT]
      refine tracks_start_new_follow ?_ ?_ ?_ <;> simp [liveF, liveS, hFT]
  | some t =>
      by_cases hd : t.done
      · simp only [startFollowIfIdle, hFT, hd, if_true]
        refine tracks_start_new_follow ?_ ?_ ?_ <;> simp [liveF, liveS, hFT, hd]
      · simp only [startFollowIfIdle, hFT, hd, Bool.false_eq_true, if_false]
        exact tracks_rfl u

theorem tracks_tickStream (s : CommandExecutor) (dies : Bool) :
    Tracks s (tickStream s dies).2 (tickStream s dies).1 := by
  cases hT : s.offboardSetpointTask with
  | none => simp only [tickStream, hT]; exact tracks_rfl s
  | some t =>
      cases hc : dies && !t.done with
      | false =>
          simp only [tickStream, hT, hc, Bool.false_eq_true, if_false]
          exact tracks_rfl s
      | true =>
          have hd : t.done = false := by
            have h := hc
            simp only [Bool.and_eq_true, Bool.not_eq_true'] at h
            exact h.2
          simp only [tickStream, hT, hc, if_true]
          refine tracks_end_stream_only ?_ ?_ ?_ <;> simp [liveS, liveF, hT, hd]

theorem tracks_tickFollow (s : CommandExecutor) (dies : Bool) :
    Tracks s (tickFollow s dies).2 (tickFollow s dies).1 := by
  cases hT : s.followTask with
  | none => simp only [tickFollow, hT]; exact tracks_rfl s
  | some t =>
      cases hc : dies && !t.done with
      | false =>
          simp only [tickFollow, hT, hc, Bool.false_eq_true, if_false]
          exact tracks_rfl s
      | true =>
          have hd : t.done = false := by
            have h := hc
            simp only [Bool.and_eq_true, Bool.not_eq_true'] at h
            exact h.2
          simp only [tickFollow, hT, hc, if_true]
          refine tracks_end_follow_only ?_ ?_ ?_ <;> simp [liveS, liveF, hT, hd]

theorem tracks_prologueFollow (s : CommandExecutor) (action : String) :
    Tracks s (prologueFollow s action).2 (prologueFollow s action).1 := by
  cases hT : s.followTask with
  | none => simp only [prologueFollow, hT]; exact tracks_rfl s
  | some t =>
      cases hc : !t.done && action != "follow_target" with
      | false =>
          simp only [prologueFollow, hT, hc, Bool.false_eq_true, if_false]
          exact tracks_rfl s
      | true =>
          have hd : t.done = false := by
            have h := hc
            simp only [Bool.and_eq_true, Bool.not_eq_true'] at h
            exact h.1
          simp only [prologueFollow, hT, hc, if_true]
          refine tracks_cancel_end_follow ?_ ?_ ?_ <;> simp [liveS, liveF, hT, hd]

theorem tracks_prologueStream (s : CommandExecutor) (action : String) :
    Tracks s (prologueStream s action).2 (prologueStream s action).1 := by
  cases hc : s.offboardActive &&
      !(action == "goto_location" || action == "follow_target" || action == "do_nothing") with
  | false =>
      simp only [prologueStream, hc, Bool.false_eq_true, if_false]
      exact tracks_rfl s
  | true =>
      simp only [prologueStream, hc, if_true]
      exact tracks_stopOffboard s

theorem tracks_dispatch (s : CommandExecutor) (action : String) (params : Params)
    (env : LinkEnv) :
    Tracks s (dispatchCommand s action params env).2.2
      (dispatchCommand s action params env).2.1 := by
  have hNeu : ∀ (u : CommandExecutor) (evs : List Ev),
      (∀ e ∈ evs, neutralEv e = true) → Tracks u evs u := fun _ _ h => tracks_neutral h
  unfold dispatchCommand
  by_cases hTak : action == "takeoff"
  · simp only [hTak, if_true]
    by_cases hC : !env.connected
    · simp only [hC, if_true]; exact tracks_rfl s
    · simp only [hC, Bool.false_eq_true, if_false]
      by_cases hArm : env.armOk <;>
        simp only [hArm, if_true, Bool.false_eq_true, if_false] <;>
        exact hNeu s _ (by simp [neutralEv])
  by_cases hLand : action == "land"
  · simp only [hTak, hLand, Bool.false_eq_true, if_false, if_true]
    by_cases hC : !env.connected
    · simp only [hC, if_true]; exact tracks_rfl s
    · simp only [hC, Bool.false_eq_true, if_false]
      by_cases hOk : env.landOk <;>
        simp only [hOk, if_true, Bool.false_eq_true, if_false] <;>
        exact hNeu s _ (by simp [neutralEv])
  by_cases hDis : action == "disarm"
  · simp only [hTak, hLand, hDis, Bool.false_eq_true, if_false, if_true]
    by_cases hC : !env.connected
    · simp only [hC, if_true]; exact tracks_rfl s
    · simp only [hC, Bool.false_eq_true, if_false]
      exact hNeu s _ (by simp [neutralEv])
  by_cases hGoto : action == "goto_location"
  · simp only [hTak, hLand, hDis, hGoto, Bool.false_eq_true, if_false, if_true]
    by_cases hC : !env.connected
    · simp only [hC, if_true]; exact tracks_rfl s
    · simp only [hC, Bool.false_eq_true, if_false]
      rcases hN : params.north_m with _ | n
      · simp only [hN]; exact tracks_rfl s
      rcases hE : params.east_m with _ | e
      · simp only [hN, hE]; exact tracks_rfl s
      rcases hAlt : params.altitude_m with _ | alt
      · simp only [hN, hE, hAlt]; exact tracks_rfl s
      simp only [hN, hE, hAlt]
      by_cases hOffA : !s.offboardActive
      · simp only [hOffA, if_true]
        by_cases hM : !(trySetOffboardMode s env).1
        · simp only [hM, if_true]; exact tracks_tryOffboard s env
        · simp only [hM, Bool.false_eq_true, if_false]
          exact tracks_append (tracks_tryOffboard s env) (tracks_startOffboard _ n e (-alt) 0)
      · simp only [hOffA, Bool.false_eq_true, if_false, Bool.not_true, Bool.not_false]
        simpa using tracks_startOffboard s n e (-alt) 0
  by_cases hFol : action == "follow_target"
  · simp only [hTak, hLand, hDis, hGoto, hFol, Bool.false_eq_true, if_false, if_true]
    by_cases hC : !env.connected
    · simp only [hC, if_true]; exact tracks_rfl s
    · simp only [hC, Bool.false_eq_true, if_false]
      rcases hTN : params.target_north_m with _ | tn
      · simp only [hTN]; exact tracks_rfl s
      rcases hTE : params.target_east_m with _ | te
      · simp only [hTN, hTE]; exact tracks_rfl s
      rcases hTD : params.target_down_m with _ | td
      · simp only [hTN, hTE, hTD]; exact tracks_rfl s
      rcases hFD : params.follow_distance_m with _ | fd
      · simp only [hTN, hTE, hTD, hFD]; exact tracks_rfl s
      rcases hFA : params.follow_altitude_m with _ | fa
      · simp only [hTN, hTE, hTD, hFD, hFA]; exact tracks_rfl s
      simp only [hTN, hTE, hTD, hFD, hFA]
      have hTo3 : Tracks s []
          ({ s with targetInfo := some ⟨params.target_id.getD "unknown_target", tn, te, td⟩,
                    followDistance := fd, followAltitude := fa }) :=
        tracks_of_eq (by simp [liveS]) (by simp [liveF])
      by_cases hOffA : !s.offboardActive
      · simp only [hOffA, if_true]
        by_cases hM : !(trySetOffboardMode
            { s with targetInfo := some ⟨params.target_id.getD "unknown_target", tn, te, td⟩,
                     followDistance := fd, followAltitude := fa } env).1
        · simp only [hM, if_true]
          simpa using tracks_append hTo3 (tracks_tryOffboard _ env)
        · simp only [hM, Bool.false_eq_true, if_false]
          simpa using tracks_append (tracks_append hTo3 (tracks_tryOffboard _ env))
            (tracks_startFollowIfIdle _)
      · simp only [hOffA, Bool.false_eq_true, if_false, Bool.not_true, Bool.not_false]
        simpa using tracks_append hTo3 (tracks_startFollowIfIdle _)
  by_cases hDoN : action == "do_nothing"
  · simp only [hTak, hLand, hDis, hGoto, hFol, hDoN, Bool.false_eq_true, if_false, if_true]
    cases hc : s.offboardActive &&
        (match s.offboardSetpointTask with | none => true | some t => t.done) with
    | false =>
        simp only [hc, Bool.false_eq_true, if_false]
        exact tracks_rfl s
    | true =>
        simp only [hc, if_true]
        rcases hP : env.posRead with _ | p
        · simp only [hP]; exact tracks_tryHold s env
        · simp only [hP]; exact tracks_startOffboard s p.north p.east p.down 0
  simp only [hTak, hLand, hDis, hGoto, hFol, hDoN, Bool.false_eq_true, if_false]
  exact tracks_rfl s

theorem tracks_execute (s : CommandExecutor) (cmd : Cmd) (env : LinkEnv) :
    Tracks s (executeCommand s cmd env).2.2 (executeCommand s cmd env).2.1 := by
  unfold executeCommand
  exact tracks_append (tracks_append (tracks_prologueFollow s cmd.action)
    (tracks_prologueStream _ cmd.action)) (tracks_dispatch _ cmd.action cmd.parameters env)

theorem tracks_schedTick (s : CommandExecutor) (a b : Bool) :
    Tracks s (schedTick s a b).2 (schedTick s a b).1 := by
  unfold schedTick
  exact tracks_append (tracks_tickStream s a) (tracks_tickFollow _ b)

theorem tracks_runSteps (steps : List SchedStep) : ∀ s : CommandExecutor,
    Tracks s (runSteps s steps).2 (runSteps s steps).1 := by
  induction steps with
  | nil => intro s; exact tracks_rfl s
  | cons st rest ih =>
      intro s
      exact tracks_append (tracks_append (tracks_schedTick s st.streamDies st.followDies)
        (tracks_execute _ st.cmd st.env)) (ih _)

theorem boundedFrom_take (evs : List Ev) : ∀ ls lf,
    boundedFrom ls lf evs → ls.length ≤ 1 → lf.length ≤ 1 → ∀ n : Nat,
    ((evs.take n).foldl streamStep ls).length ≤ 1 ∧
    ((evs.take n).foldl followStep lf).length ≤ 1 := by
  induction evs with
  | nil => intro ls lf _ h1 h2 n; simpa using ⟨h1, h2⟩
  | cons e rest ih =>
      intro ls lf hb h1 h2 n
      cases n with
      | zero => simpa using ⟨h1, h2⟩
      | succ m =>
          obtain ⟨hs, hf, hrest⟩ := hb
          simpa using ih (streamStep ls e) (followStep lf e) hrest hs hf m

/-! ## Theorems: the task-exclusion invariant -/

/-- Claim C1: over any sequence of control-loop steps (each a possible
spontaneous background-task termination followed by one executed command),
at every instant of the emitted event trace at most one setpoint-streaming
task and at most one follow task are live; moreover a new stream task is
started only at instants where no stream task is live (the old one was
cancelled and its termination awaited first), and likewise a new follow
task is started only when no follow task is live. -/
theorem C1_single_live_task (steps : List SchedStep) (n : Nat) :
    (openStreams (((runSteps CommandExecutor.init steps).2).take n)).length ≤ 1 ∧
    (openFollows (((runSteps CommandExecutor.init steps).2).take n)).length ≤ 1 ∧
    (∀ k, ((runSteps CommandExecutor.init steps).2)[n]? = some (Ev.startStream k) →
      openStreams (((runSteps CommandExecutor.init steps).2).take n) = []) ∧
    (∀ k, ((runSteps CommandExecutor.init steps).2)[n]? = some (Ev.startFollow k) →
      openFollows (((runSteps CommandExecutor.init steps).2).take n) = []) := by
  obtain ⟨hb, _, _⟩ := tracks_runSteps steps CommandExecutor.init
  have hmain := boundedFrom_take _ [] [] (by simpa using hb) (by simp) (by simp)
  refine ⟨by simpa [openStreams] using (hmain n).1, by simpa [openFollows] using (hmain n).2,
    ?_, ?_⟩
  · intro k hk
    have h1 := (hmain (n + 1)).1
    rw [List.take_succ, hk] at h1
    simp only [Option.toList_some, List.foldl_append, List.foldl_cons, List.foldl_nil,
      streamStep, List.length_cons] at h1
    have hlen : (((runSteps CommandExecutor.init steps).2.take n).foldl streamStep
        ([] : List Nat)).length = 0 := by omega
    simpa [openStreams] using List.length_eq_zero.mp hlen
  · intro k hk
    have h2 := (hmain (n + 1)).2
    rw [List.take_succ, hk] at h2
    simp only [Option.toList_some, List.foldl_append, List.foldl_cons, List.foldl_nil,
      followStep, List.length_cons] at h2
    have hlen : (((runSteps CommandExecutor.init steps).2.take n).foldl followStep
        ([] : List Nat)).length = 0 := by omega
    simpa [openFollows] using List.length_eq_zero.mp hlen

/-- Witness for C1: in the concrete two-command run, the second stream
task starts at trace position 24 with no live stream task, and the follow
task starts at position 25 with no live follow task. -/
theorem C1_single_live_task_witness :
    ((runSteps CommandExecutor.init demoSteps).2)[24]? = some (Ev.startStream 1) ∧
    openStreams (((runSteps CommandExecutor.init demoSteps).2).take 24) = [] ∧
    ((runSteps CommandExecutor.init demoSteps).2)[25]? = some (Ev.startFollow 2) ∧
    openFollows (((runSteps CommandExecutor.init demoSteps).2).take 25) = [] :=
  ⟨by decide, (C1_single_live_task demoSteps 24).2.2.1 1 (by decide),
   by decide, (C1_single_live_task demoSteps 25).2.2.2 2 (by decide)⟩

/-! ## Theorems: arbitrator claims -/

/-- Claim C2: arbitration is consume-once.  If human control is active and
a pending human command `c` exists, `arbitrate` returns `c` and clears the
pending slot, so an immediately following `arbitrate` call (no new human
command set) returns a `do_nothing` command, for any proposals. -/
theorem C2_consume_once (a : CommandArbitrator) (c llm1 llm2 : Cmd)
    (hact : a.humanControlActive = true) (hpend : a.humanCommand = some c) :
    (arbitrateCommand a llm1).1 = c ∧
    (arbitrateCommand a llm1).2.humanCommand = none ∧
    (arbitrateCommand (arbitrateCommand a llm1).2 llm2).1.action = "do_nothing" := by
  simp [arbitrateCommand, hact, hpend, doNothingCmd]

/-- Witness for C2 at a concrete arbitrator state holding a pending land
command. -/
theorem C2_consume_once_witness :
    (setHumanCommand CommandArbitrator.init { action := "land" }).humanControlActive = true ∧
    (setHumanCommand CommandArbitrator.init { action := "land" }).humanCommand =
      some { action := "land" } ∧
    (arbitrateCommand (setHumanCommand CommandArbitrator.init { action := "land" })
      doNothingCmd).1 = { action := "land" } :=
  ⟨rfl, rfl,
    (C2_consume_once (setHumanCommand CommandArbitrator.init { action := "land" })
      { action := "land" } doNothingCmd doNothingCmd rfl rfl).1⟩

/-- Claim C7 counterexample: `set_human_control_active(False)` hands
control to autonomous but does NOT clear the pending human command, so
"cleared after any operation that sets humanControlActive to false" fails
at this concrete state. -/
theorem C7_cex :
    (setHumanControlActive
      (setHumanCommand CommandArbitrator.init { action := "land" }) false).humanControlActive
        = false ∧
    (setHumanControlActive
      (setHumanCommand CommandArbitrator.init { action := "land" }) false).humanCommand
        ≠ none := by
  decide

/-- Claim C7 (amended): the pending command is cleared by `release` (which
also deactivates control) and by `setHumanControlActive(true)`; but
`setHumanControlActive(false)` deactivates control while leaving any
pending command in place. -/
theorem C7_amended (a : CommandArbitrator) :
    (releaseHumanControl a).humanCommand = none ∧
    (releaseHumanControl a).humanControlActive = false ∧
    (setHumanControlActive a true).humanCommand = none ∧
    (setHumanControlActive a false).humanCommand = a.humanCommand ∧
    (setHumanControlActive a false).humanControlActive = false := by
  simp [releaseHumanControl, setHumanControlActive]

/-- Claim C10: a freshly constructed arbitrator has human control active
and no pending command, so every proposal made before any further call is
answered with a `do_nothing` command (never passed through). -/
theorem C10_startup (llm : Cmd) :
    CommandArbitrator.init.humanControlActive = true ∧
    CommandArbitrator.init.humanCommand = none ∧
    (arbitrateCommand CommandArbitrator.init llm).1 = doNothingCmd ∧
    (arbitrateCommand CommandArbitrator.init llm).1.action = "do_nothing" := by
  simp [CommandArbitrator.init, arbitrateCommand, doNothingCmd]

/-! ## Theorems: offboard mode entry priming (C3) -/

/-- Claim C3: entering offboard mode from a non-streaming state transmits
the hold setpoint exactly 10 times, then starts the streaming task, and
only then issues the mode-switch call; if the switch fails, the
just-started stream is cancelled and its termination observed before the
failure is returned, leaving no live stream task. -/
theorem C3_priming (s : CommandExecutor) (env : LinkEnv)
    (hOff : s.offboardActive = false) (hLive : liveS s = []) :
    (trySetOffboardMode s env).2.2 =
      List.replicate 10 (Ev.sendSetpoint (holdSetpoint env))
        ++ [Ev.startStream s.nextTaskId, Ev.offboardStartCall]
        ++ (if env.offboardStartOk then []
            else [Ev.cancelStream s.nextTaskId, Ev.endStream s.nextTaskId]) ∧
    (env.offboardStartOk = false →
      (trySetOffboardMode s env).1 = false ∧
      liveS (trySetOffboardMode s env).2.1 = []) := by
  have hsp : (⟨(holdSetpoint env).north, (holdSetpoint env).east, (holdSetpoint env).down, 0⟩
      : PositionNedYaw) = holdSetpoint env := by
    cases hp : env.posRead <;> simp [holdSetpoint, hp]
  have hstart :
      startOffboardSetpointStream s (holdSetpoint env).north (holdSetpoint env).east
        (holdSetpoint env).down 0 =
      ({ s with currentOffboardSetpoint := holdSetpoint env,
                offboardSetpointTask := some ⟨s.nextTaskId, false⟩,
                offboardActive := true, nextTaskId := s.nextTaskId + 1 },
       List.replicate 10 (Ev.sendSetpoint (holdSetpoint env))
         ++ [Ev.startStream s.nextTaskId]) := by
    cases hT : s.offboardSetpointTask with
    | none => simp [startOffboardSetpointStream, hT, hsp]
    | some t =>
        have hd : t.done = true := by
          cases hdt : t.done
          · simp [liveS, hT, hdt] at hLive
          · rfl
        simp [startOffboardSetpointStream, hT, hd, hsp]
  cases hOk : env.offboardStartOk
  · refine ⟨?_, fun _ => ⟨?_, ?_⟩⟩ <;>
      simp [trySetOffboardMode, hOff, hOk, hstart, stopOffboardSetpointStream, liveS]
  · refine ⟨?_, fun h => by simp [hOk] at h⟩
    simp [trySetOffboardMode, hOff, hOk, hstart]

/-- Witness for C3: from the initial state with a failing mode switch, the
call fails and no live stream task remains. -/
theorem C3_priming_witness :
    CommandExecutor.init.offboardActive = false ∧
    liveS CommandExecutor.init = [] ∧
    (trySetOffboardMode CommandExecutor.init failEnv).1 = false ∧
    liveS (trySetOffboardMode CommandExecutor.init failEnv).2.1 = [] :=
  ⟨rfl, rfl,
    ((C3_priming CommandExecutor.init failEnv rfl rfl).2 rfl).1,
    ((C3_priming CommandExecutor.init failEnv rfl rfl).2 rfl).2⟩

/-! ## Theorems: follow_target validation (C4) -/

/-- Claim C4 counterexample: with zero detected-object tracks in the state
store, an `execute(follow_target)` call whose command carries its own
target parameters succeeds and enters offboard mode — the executor never
consults the store's tracks, refuting "zero TargetTracks implies failure
and no offboard entry". -/
theorem C4_cex :
    DroneState.init.detectedObjects = [] ∧
    (executeCommand CommandExecutor.init followDemoCmd demoEnv).1 = true ∧
    (executeCommand CommandExecutor.init followDemoCmd demoEnv).2.1.offboardActive = true := by
  decide

/-- Claim C4 (amended): `execute(follow_target)` validates only the
command's own target parameters (the state store is never consulted);
with an empty parameter dictionary it returns failure, does not enter
offboard mode, changes no executor state and emits no event. -/
theorem C4_amended (s : CommandExecutor) (env : LinkEnv) :
    executeCommand s { action := "follow_target" } env = (false, s, []) := by
  have h1 : prologueFollow s "follow_target" = (s, []) := by
    cases hT : s.followTask with
    | none => simp [prologueFollow, hT]
    | some t => simp [prologueFollow, hT]
  have h2 : prologueStream s "follow_target" = (s, []) := by
    simp [prologueStream]
  have h3 : dispatchCommand s "follow_target" {} env = (false, s, []) := by
    cases hc : env.connected <;> simp [dispatchCommand, hc]
  simp [executeCommand, h1, h2, h3]

/-! ## Theorems: goto_location parameter validation (C5) -/

/-- Claim C5 counterexample: `execute(goto_location)` with missing
parameters returns failure, but it is not side-effect free — a live
follow task is cancelled and awaited by the dispatch prologue before
parameter validation, refuting "an active follow task is left
untouched". -/
theorem C5_cex :
    (executeCommand liveFollowState { action := "goto_location" } demoEnv).1 = false ∧
    liveFollowState.followTask = some ⟨3, false⟩ ∧
    (executeCommand liveFollowState { action := "goto_location" } demoEnv).2.1.followTask
      = none ∧
    (executeCommand liveFollowState { action := "goto_location" } demoEnv).2.2 =
      [Ev.cancelFollow 3, Ev.endFollow 3] := by
  decide

/-- Claim C5 (amended): `execute(goto_location)` with any of `north_m`,
`east_m`, `altitude_m` missing returns failure; the streaming task, the
offboard flag and the current setpoint are untouched and no stream event
is emitted; but a live follow task is first cancelled and awaited (its
cancel/end events are the entire trace). -/
theorem C5_amended (s : CommandExecutor) (env : LinkEnv) (p : Params)
    (hmiss : p.north_m = none ∨ p.east_m = none ∨ p.altitude_m = none) :
    (executeCommand s { action := "goto_location", parameters := p } env).1 = false ∧
    (executeCommand s { action := "goto_location", parameters := p }
      env).2.1.offboardSetpointTask = s.offboardSetpointTask ∧
    (executeCommand s { action := "goto_location", parameters := p }
      env).2.1.offboardActive = s.offboardActive ∧
    (executeCommand s { action := "goto_location", parameters := p }
      env).2.1.currentOffboardSetpoint = s.currentOffboardSetpoint ∧
    (executeCommand s { action := "goto_location", parameters := p } env).2.2 =
      (match s.followTask with
        | some t => if t.done then [] else [Ev.cancelFollow t.id, Ev.endFollow t.id]
        | none => []) := by
  have hd : ∀ s1 : CommandExecutor,
      dispatchCommand s1 "goto_location" p env = (false, s1, []) := by
    intro s1
    rcases hN : p.north_m with _ | n <;> rcases hE : p.east_m with _ | e <;>
      rcases hA : p.altitude_m with _ | alt <;>
      cases hc : env.connected <;>
      simp_all [dispatchCommand]
  have h2 : ∀ s1 : CommandExecutor, prologueStream s1 "goto_location" = (s1, []) := by
    intro s1; simp [prologueStream]
  cases hT : s.followTask with
  | none =>
      have h1 : prologueFollow s "goto_location" = (s, []) := by
        simp [prologueFollow, hT]
      simp [executeCommand, h1, h2, hd]
  | some t =>
      by_cases hdn : t.done
      · have h1 : prologueFollow s "goto_location" = (s, []) := by
          simp [prologueFollow, hT, hdn]
        simp [executeCommand, h1, h2, hd, hdn]
      · have h1 : prologueFollow s "goto_location" =
            ({ s with followTask := none, targetInfo := none },
             [Ev.cancelFollow t.id, Ev.endFollow t.id]) := by
          simp [prologueFollow, hT, hdn]
        simp [executeCommand, h1, h2, hd, hdn]

/-- Witness for C5 (amended) at the live-follow state with an empty
parameter dictionary. -/
theorem C5_amended_witness :
    ({} : Params).north_m = none ∧
    (executeCommand liveFollowState { action := "goto_location", parameters := {} }
      demoEnv).1 = false ∧
    (executeCommand liveFollowState { action := "goto_location", parameters := {} }
      demoEnv).2.1.offboardSetpointTask = liveFollowState.offboardSetpointTask :=
  ⟨rfl, (C5_amended liveFollowState demoEnv {} (Or.inl rfl)).1,
    (C5_amended liveFollowState demoEnv {} (Or.inl rfl)).2.1⟩

/-! ## Theorems: the pursuit-loop iteration (C6) -/

theorem startOffboard_setpoint (s : CommandExecutor) (n e d y : ℚ) :
    (startOffboardSetpointStream s n e d y).1.currentOffboardSetpoint = ⟨n, e, d, y⟩ := by
  cases hT : s.offboardSetpointTask with
  | none => simp [startOffboardSetpointStream, hT]
  | some t => by_cases hd : t.done <;> simp [startOffboardSetpointStream, hT, hd]

theorem startOffboard_live (s : CommandExecutor) (n e d y : ℚ) :
    liveS (startOffboardSetpointStream s n e d y).1 = [s.nextTaskId] := by
  cases hT : s.offboardSetpointTask with
  | none => simp [startOffboardSetpointStream, hT, liveS]
  | some t => by_cases hd : t.done <;> simp [startOffboardSetpointStream, hT, hd, liveS]

/-- Claim C6 counterexample: a pursuit-loop iteration with a known drone
position inside the follow distance leaves the current setpoint at its old
value (which differs from the desired point (0, 0, -5)) and emits nothing,
refuting "otherwise it updates the current setpoint in place". -/
theorem C6_cex :
    (followTargetLoopIter heldFollowState heldFollowEnv).1 = FollowStep.held ∧
    (followTargetLoopIter heldFollowState heldFollowEnv).2.1.currentOffboardSetpoint =
      ⟨99, 99, -99, 0⟩ ∧
    (⟨99, 99, -99, 0⟩ : PositionNedYaw) ≠ ⟨0, 0, -5, 0⟩ ∧
    (followTargetLoopIter heldFollowState heldFollowEnv).2.2 = [] := by
  refine ⟨?_, ?_, ?_, ?_⟩ <;>
    norm_num [followTargetLoopIter, heldFollowState, heldFollowEnv,
      CommandExecutor.init, PositionNedYaw.mk.injEq]

/-- Claim C6 (amended): on a pursuit-loop iteration with target info and a
known drone position, if the horizontal distance to the desired point
exceeds the follow-distance threshold the setpoint stream is restarted at
the desired point (one new live stream task); otherwise the iteration is a
no-op — state and trace unchanged (no in-place setpoint update). -/
theorem C6_amended (s : CommandExecutor) (env : LinkEnv) (tgt : TargetInfo)
    (pos : PositionNedYaw) (ht : s.targetInfo = some tgt)
    (hp : env.posRead = some pos) :
    ((s.followDistance < 0 ∨
        (tgt.north_m - pos.north) ^ 2 + (tgt.east_m - pos.east) ^ 2 >
          s.followDistance ^ 2) →
      (followTargetLoopIter s env).1 = FollowStep.moved ∧
      (followTargetLoopIter s env).2.1.currentOffboardSetpoint =
        ⟨tgt.north_m, tgt.east_m, -s.followAltitude, 0⟩ ∧
      liveS (followTargetLoopIter s env).2.1 = [s.nextTaskId]) ∧
    (¬ (s.followDistance < 0 ∨
        (tgt.north_m - pos.north) ^ 2 + (tgt.east_m - pos.east) ^ 2 >
          s.followDistance ^ 2) →
      (followTargetLoopIter s env).1 = FollowStep.held ∧
      (followTargetLoopIter s env).2.1 = s ∧
      (followTargetLoopIter s env).2.2 = []) := by
  have hiter : followTargetLoopIter s env =
      (if s.followDistance < 0 ∨
          (tgt.north_m - pos.north) ^ 2 + (tgt.east_m - pos.east) ^ 2 >
            s.followDistance ^ 2 then
        (FollowStep.moved,
         (startOffboardSetpointStream s tgt.north_m tgt.east_m (-s.followAltitude) 0).1,
         (startOffboardSetpointStream s tgt.north_m tgt.east_m (-s.followAltitude) 0).2)
      else (FollowStep.held, s, [])) := by
    simp only [followTargetLoopIter, ht, hp]
  constructor
  · intro hc
    rw [hiter, if_pos hc]
    exact ⟨rfl, startOffboard_setpoint s tgt.north_m tgt.east_m (-s.followAltitude) 0,
      startOffboard_live s tgt.north_m tgt.east_m (-s.followAltitude) 0⟩
  · intro hc
    rw [hiter, if_neg hc]
    exact ⟨rfl, rfl, rfl⟩

/-- Witness for C6 (amended): a drone position away from the desired
point (with follow distance 0) makes the iteration restart the stream at
the desired point. -/
theorem C6_amended_witness :
    liveFollowState.targetInfo = some ⟨"t", 1, 2, 3⟩ ∧
    heldFollowEnv.posRead = some ⟨0, 0, -5, 0⟩ ∧
    (followTargetLoopIter liveFollowState heldFollowEnv).1 = FollowStep.moved ∧
    (followTargetLoopIter liveFollowState heldFollowEnv).2.1.currentOffboardSetpoint =
      ⟨1, 2, -liveFollowState.followAltitude, 0⟩ :=
  ⟨rfl, rfl,
    ((C6_amended liveFollowState heldFollowEnv ⟨"t", 1, 2, 3⟩ ⟨0, 0, -5, 0⟩ rfl rfl).1
      (by norm_num [liveFollowState, CommandExecutor.init])).1,
    ((C6_amended liveFollowState heldFollowEnv ⟨"t", 1, 2, 3⟩ ⟨0, 0, -5, 0⟩ rfl rfl).1
      (by norm_num [liveFollowState, CommandExecutor.init])).2.1⟩

/-! ## Theorems: recording of the last executed command (C8) -/

/-- Claim C8 counterexample: a human land command whose execution fails
(link disconnected) still replaces `lastExecutedCommand` on the direct
human-command path, refuting "failed actions leave lastExecutedCommand
unchanged". -/
theorem C8_cex :
    (executeCommand CommandExecutor.init landCmd envDisconnected).1 = false ∧
    (humanFlightCommandPath DroneState.init CommandArbitrator.init CommandExecutor.init
      landCmd envDisconnected).1.lastExecutedCommand = landCmd ∧
    DroneState.init.lastExecutedCommand ≠ landCmd := by
  decide

/-- Claim C8 (amended): only the arbitrated autonomous-command path guards
the update by the execution result — a failed arbitrated command leaves
`lastExecutedCommand` unchanged; the direct human-command path records the
command unconditionally, ignoring the execution result. -/
theorem C8_amended (ds : DroneState) (arb : CommandArbitrator) (ex : CommandExecutor)
    (cmd : Cmd) (env : LinkEnv) :
    ((executeCommand ex cmd env).1 = false →
      (arbitratedCommandPath ds ex cmd env).1.lastExecutedCommand =
        ds.lastExecutedCommand) ∧
    (humanFlightCommandPath ds arb ex cmd env).1.lastExecutedCommand = cmd := by
  constructor
  · intro h
    simp [arbitratedCommandPath, h]
  · simp [humanFlightCommandPath, setLastExecutedCommand, setHumanControlStatus]

/-- Witness for C8 (amended): on the arbitrated path a failing land
command leaves the recorded command unchanged. -/
theorem C8_amended_witness :
    (executeCommand CommandExecutor.init landCmd envDisconnected).1 = false ∧
    (arbitratedCommandPath DroneState.init CommandExecutor.init landCmd
      envDisconnected).1.lastExecutedCommand = DroneState.init.lastExecutedCommand :=
  ⟨by decide,
    (C8_amended DroneState.init CommandArbitrator.init CommandExecutor.init landCmd
      envDisconnected).1 (by decide)⟩

/-! ## Theorems: takeoff (C9) -/

/-- Claim C9 counterexample: a takeoff command with a negative altitude is
not rejected — it arms and commands takeoff at -5 m and reports success,
refuting "returns failure if the altitude parameter is invalid (negative
or zero is an error)". -/
theorem C9_cex :
    (executeCommand CommandExecutor.init takeoffNegCmd demoEnv).1 = true ∧
    (executeCommand CommandExecutor.init takeoffNegCmd demoEnv).2.2 =
      [Ev.armCall, Ev.takeoffCall (-5)] := by
  decide

/-- Claim C9 (amended): takeoff requires the link connected, arms, then
commands takeoff at `altitude_m` (default 2.5 m); it fails exactly when
the link is disconnected, arming fails, or the takeoff call fails — the
altitude value itself is never validated and is passed through as-is. -/
theorem C9_amended (s : CommandExecutor) (p : Params) (env : LinkEnv) :
    ((executeCommand s { action := "takeoff", parameters := p } env).1 =
      (env.connected && env.armOk && env.takeoffOk)) ∧
    (env.connected = true → env.armOk = true →
      Ev.takeoffCall (p.altitude_m.getD (5 / 2)) ∈
        (executeCommand s { action := "takeoff", parameters := p } env).2.2) := by
  have hd : ∀ s2 : CommandExecutor, dispatchCommand s2 "takeoff" p env =
      (if !env.connected then (false, s2, ([] : List Ev))
       else if env.armOk then
         (env.takeoffOk, s2, [Ev.armCall, Ev.takeoffCall (p.altitude_m.getD (5 / 2))])
       else (false, s2, [Ev.armCall])) := by
    intro s2; simp [dispatchCommand]
  cases hc : env.connected <;> cases ha : env.armOk <;>
    simp [executeCommand, hd, hc, ha]

/-- Witness for C9 (amended): with a connected link and successful arming,
the takeoff call is made at the 2.5 m default altitude. -/
theorem C9_amended_witness :
    demoEnv.connected = true ∧ demoEnv.armOk = true ∧
    Ev.takeoffCall (5 / 2) ∈
      (executeCommand CommandExecutor.init { action := "takeoff" } demoEnv).2.2 :=
  ⟨rfl, rfl, (C9_amended CommandExecutor.init {} demoEnv).2 rfl rfl⟩

end DroneOne
